import Mathlib

/-!
Verification of the motorino Vulkan renderer core (`src/unnamed/part_002`,
the current revision matching `include/nkgt/renderer.hpp`).

Each definition below is a shallow embedding of the corresponding C++
function; the external Vulkan/GLFW/Win32 calls are modelled by explicit
parameters for their observable answers (queue-family properties, surface
capabilities, sub-step success flags, framebuffer-size polls, file sizes)
and by event traces recording the calls the code issues.
-/

/-- One Vulkan queue family as observed by `find_queue_indices`: its
`VK_QUEUE_GRAPHICS_BIT` and `VK_QUEUE_TRANSFER_BIT` flags and the answer of
`vkGetPhysicalDeviceSurfaceSupportKHR` for the target surface. -/
structure QueueFamily where
  graphicsBit : Bool
  transferBit : Bool
  presentSupport : Bool
deriving DecidableEq

/-- Mirrors `Motorino::queue_indices` (renderer.hpp): three optional
queue-family indices. -/
@[ext] structure queue_indices where
  graphics : Option Nat
  present : Option Nat
  transfer : Option Nat
deriving DecidableEq

/-- Mirrors `is_complete` (part_002 lines 89-93). -/
def is_complete (q : queue_indices) : Bool :=
  q.graphics.isSome && q.present.isSome && q.transfer.isSome

/-- One iteration of the loop body of `find_queue_indices`
(part_002 lines 107-124): family `i` updates `graphics` when it has the
graphics bit, otherwise updates `transfer` when it has the transfer bit,
and updates `present` when the surface reports present support. -/
def stepFamily (q : queue_indices) (i : Nat) (f : QueueFamily) : queue_indices :=
  let q1 :=
    if f.graphicsBit then { q with graphics := some i }
    else if f.transferBit then { q with transfer := some i }
    else q
  if f.presentSupport then { q1 with present := some i } else q1

/-- The loop of `find_queue_indices` (part_002 lines 107-126): after each
family the loop breaks as soon as `is_complete` holds. -/
def findLoop : List QueueFamily → Nat → queue_indices → queue_indices
  | [], _, q => q
  | f :: fs, i, q =>
    if is_complete (stepFamily q i f) then stepFamily q i f
    else findLoop fs (i + 1) (stepFamily q i f)

/-- Mirrors `find_queue_indices` (part_002 lines 95-130), indexing the
queue families by their position in the list. -/
def find_queue_indices (fams : List QueueFamily) : queue_indices :=
  findLoop fams 0 ⟨none, none, none⟩

/-- The completeness check in `Engine::init_vulkan` (part_002 lines
308-313): `init_vulkan` logs the queue-support failure and returns `false`
exactly when `is_complete` fails on the discovered indices. -/
def init_vulkan_queue_failure (fams : List QueueFamily) : Bool :=
  !(is_complete (find_queue_indices fams))

/-- Modelled from the spec's words for claim C2 ("picks the first family
advertising ... capability"): the index of the first family in the list
satisfying a capability predicate. Used only to compare the spec's claimed
selection with the code's actual selection. -/
def firstFamilyIndex (p : QueueFamily → Bool) : List QueueFamily → Nat → Option Nat
  | [], _ => none
  | f :: fs, i => if p f then some i else firstFamilyIndex p fs (i + 1)

/-- The index of the last family in the list satisfying a capability
predicate, starting from base index `i` with accumulator `acc`. -/
def lastFamilyIndex (p : QueueFamily → Bool) : List QueueFamily → Nat → Option Nat → Option Nat
  | [], _, acc => acc
  | f :: fs, i, acc => lastFamilyIndex p fs (i + 1) (if p f then some i else acc)

/-- How many families the `find_queue_indices` loop actually scans before
its early `break` (the whole list when the indices never become
complete). -/
def scanLength : List QueueFamily → Nat → queue_indices → Nat
  | [], _, _ => 0
  | f :: fs, i, q =>
    if is_complete (stepFamily q i f) then 1
    else scanLength fs (i + 1) (stepFamily q i f) + 1

/-- Whether each sub-step of a swapchain rebuild succeeds, i.e. the
results the calls to `create_swapchain`, `create_image_views` and
`create_framebuffers` would return inside `recreate_swapchain`. -/
structure RebuildResults where
  swapchainOk : Bool
  imageViewsOk : Bool
  framebuffersOk : Bool
deriving DecidableEq

/-- The calls `Engine::recreate_swapchain` (part_002 lines 914-933) issues,
in order.  `getFramebufferSize` records the extent the poll observed;
each creation step records the result the callee returned (results the
caller discards). -/
inductive RecreateAction where
  | getFramebufferSize (w h : Nat)
  | waitEvents
  | deviceWaitIdle
  | destroyFramebuffers
  | destroyImageViews
  | destroySwapchain
  | createSwapchain (ok : Bool)
  | createImageViews (ok : Bool)
  | createFramebuffers (ok : Bool)
deriving DecidableEq

/-- The tail of `recreate_swapchain` after its size-wait loop (part_002
lines 924-930): `vkDeviceWaitIdle`, then `cleanup_swapchain` (destroying
framebuffers, image views, swapchain in that order, lines 902-912), then
the three creation sub-steps, whose boolean results are discarded. -/
def rebuildRecreateActions (r : RebuildResults) : List RecreateAction :=
  [RecreateAction.deviceWaitIdle,
   RecreateAction.destroyFramebuffers, RecreateAction.destroyImageViews, RecreateAction.destroySwapchain,
   RecreateAction.createSwapchain r.swapchainOk,
   RecreateAction.createImageViews r.imageViewsOk,
   RecreateAction.createFramebuffers r.framebuffersOk]

/-- The `while (width == 0 || height == 0)` loop of `recreate_swapchain`
(part_002 lines 919-922): while the last observed extent is degenerate,
re-read the framebuffer size and call `glfwWaitEvents`.  `extents k` is
the extent the (k+1)-th `glfwGetFramebufferSize` call observes; `fuel`
bounds the number of loop iterations modelled (`none` means the loop is
still blocking after `fuel` iterations). -/
def waitNonzero (extents : Nat → Nat × Nat) : Nat → Nat → Nat → Nat → Option (List RecreateAction)
  | _, w, h, 0 => if w = 0 ∨ h = 0 then none else some []
  | i, w, h, fuel + 1 =>
    if w = 0 ∨ h = 0 then
      (waitNonzero extents (i + 1) (extents i).1 (extents i).2 fuel).map
        (fun tr => RecreateAction.getFramebufferSize (extents i).1 (extents i).2 ::
          RecreateAction.waitEvents :: tr)
    else some []

/-- Mirrors `Engine::recreate_swapchain` (part_002 lines 914-933): an
initial `glfwGetFramebufferSize`, the degenerate-extent wait loop, then
the device-idle wait, teardown and rebuild.  The returned `Bool` is the
function's return value, which the source makes unconditionally `true`. -/
def recreate_swapchain (extents : Nat → Nat × Nat) (r : RebuildResults) (fuel : Nat) :
    Option (Bool × List RecreateAction) :=
  (waitNonzero extents 1 (extents 0).1 (extents 0).2 fuel).map
    (fun tr => (true,
      RecreateAction.getFramebufferSize (extents 0).1 (extents 0).2 :: tr ++ rebuildRecreateActions r))

/-- RecreateActions permitted while `recreate_swapchain` is still blocked on a
degenerate extent: framebuffer-size reads that observed a zero dimension,
and `glfwWaitEvents`. -/
def isBlockedPoll : RecreateAction → Bool
  | RecreateAction.getFramebufferSize w h => w == 0 || h == 0
  | RecreateAction.waitEvents => true
  | _ => false

/-- The behaviour claim C4 asserts of a completed `recreate_swapchain`
trace: an initial stretch of degenerate-size polls and event waits, then a
framebuffer-size read with both dimensions nonzero, then (after at most
one trailing `glfwWaitEvents`) exactly the device-idle wait followed by
the teardown and the rebuild. -/
def blockedThenRebuild (r : RebuildResults) (tr : List RecreateAction) : Prop :=
  ∃ zp w h rest,
    tr = zp ++ RecreateAction.getFramebufferSize w h :: rest ∧
    0 < w ∧ 0 < h ∧
    (∀ a ∈ zp, isBlockedPoll a = true) ∧
    (rest = rebuildRecreateActions r ∨ rest = RecreateAction.waitEvents :: rebuildRecreateActions r)

/-- Concrete poll sequence for the C4 witness: the first read observes a
zero width, every later read observes 800x600. -/
def exampleExtents : Nat → Nat × Nat :=
  fun k => if k = 0 then (0, 600) else (800, 600)

/-- All rebuild sub-steps succeed. -/
def allStepsOk : RebuildResults := ⟨true, true, true⟩

/-- The trace `recreate_swapchain` produces on `exampleExtents` with two
units of fuel. -/
def exampleTrace : List RecreateAction :=
  [RecreateAction.getFramebufferSize 0 600,
   RecreateAction.getFramebufferSize 800 600, RecreateAction.waitEvents,
   RecreateAction.deviceWaitIdle,
   RecreateAction.destroyFramebuffers, RecreateAction.destroyImageViews, RecreateAction.destroySwapchain,
   RecreateAction.createSwapchain true, RecreateAction.createImageViews true,
   RecreateAction.createFramebuffers true]

/-- The two Vulkan image-sharing modes relevant to `create_swapchain`. -/
inductive SharingMode where
  | exclusive
  | concurrent
deriving DecidableEq

/-- The sharing-related fields of the `VkSwapchainCreateInfoKHR` built by
`Engine::create_swapchain`. -/
structure SwapchainSharing where
  imageSharingMode : SharingMode
  queueFamilyIndexCount : Nat
  queueFamilyIndices : List Nat
deriving DecidableEq

/-- Mirrors the sharing-mode selection of `Engine::create_swapchain`
(part_002 lines 798-829): `index_values = {graphics, transfer, present}`;
when the graphics and present family indices differ the info uses
concurrent sharing over all three entries, otherwise it uses concurrent
sharing over the first two entries (both branches write
`VK_SHARING_MODE_CONCURRENT`). -/
def create_swapchain_sharing (graphics transfer present : Nat) : SwapchainSharing :=
  if graphics ≠ present then
    ⟨SharingMode.concurrent, 3, ([graphics, transfer, present]).take 3⟩
  else
    ⟨SharingMode.concurrent, 2, ([graphics, transfer, present]).take 2⟩

/-- Mirrors the image-count computation of `Engine::create_swapchain`
(part_002 lines 792-796); `minImageCount + 1` is 32-bit unsigned
arithmetic. -/
def create_swapchain_image_count (minImageCount maxImageCount : Nat) : Nat :=
  if 0 < maxImageCount ∧ maxImageCount < (minImageCount + 1) % 2 ^ 32 then maxImageCount
  else (minImageCount + 1) % 2 ^ 32

/-- `sizeof(Motorino::Vertex)` for `struct Vertex { float pos[2]; float
color[3]; }` (renderer.hpp): five 4-byte floats, no padding. -/
def sizeofVertex : Nat := 20

/-- Mirrors `Motorino::Geometry` (renderer.hpp) without the `data`
pointer, whose bytes do not influence the properties proved here. -/
structure Geometry where
  vertex_count : Nat
  index_count : Nat
deriving DecidableEq

/-- The `_index_count` and `_vertex_count` members of `Motorino::Engine`
relevant to vertex upload and command recording. -/
structure EngineGeom where
  index_count : Nat
  vertex_count : Nat
deriving DecidableEq

/-- The counts after the `Engine` constructor (part_002 lines 206-207):
both zero. -/
def engineInitGeom : EngineGeom := ⟨0, 0⟩

/-- The buffer- and queue-level calls `Engine::submit_vertex_data` issues.
`createBuffer staging size ok` records a `create_buffer` call (`staging`
true for the host-visible staging buffer, false for the device-local
destination buffer) and the result it returned. -/
inductive UploadEvent where
  | createBuffer (staging : Bool) (size : Nat) (ok : Bool)
  | mapMemcpyUnmap (size : Nat)
  | allocCommandBuffer
  | cmdCopyBuffer (size : Nat)
  | queueSubmitTransfer
  | queueWaitIdleTransfer
  | freeCommandBuffer
  | destroyStagingBuffer
  | freeStagingMemory
deriving DecidableEq

/-- Whether an upload event releases the staging buffer or its memory. -/
def UploadEvent.isStagingRelease : UploadEvent → Bool
  | UploadEvent.destroyStagingBuffer => true
  | UploadEvent.freeStagingMemory => true
  | _ => false

/-- Whether a `createBuffer` upload event carries size `n` (events other
than buffer creation satisfy this vacuously). -/
def eventBufferSizeIs (n : Nat) : UploadEvent → Bool
  | UploadEvent.createBuffer _ s _ => s == n
  | _ => true

/-- Mirrors `Engine::submit_vertex_data` (part_002 lines 689-764).
`stagingOk` and `dstOk` are the results of its two `create_buffer` calls.
The member counts are assigned first (lines 692-693); `size =
vertex_count * sizeof(Vertex) + index_count * sizeof(uint16_t)` (lines
695-696); a failed staging-buffer creation returns `false` at once; a
failed destination-buffer creation returns `false` without touching the
already-created staging buffer; on success the copy is submitted, the
transfer queue drained, and only then are the command buffer freed and the
staging buffer and its memory released. -/
def submit_vertex_data (stagingOk dstOk : Bool) (_st : EngineGeom) (g : Geometry) :
    Bool × EngineGeom × List UploadEvent :=
  let newSt : EngineGeom := ⟨g.index_count, g.vertex_count⟩
  let size := g.vertex_count * sizeofVertex + g.index_count * 2
  if stagingOk = false then
    (false, newSt, [UploadEvent.createBuffer true size false])
  else if dstOk = false then
    (false, newSt,
      [UploadEvent.createBuffer true size true,
       UploadEvent.mapMemcpyUnmap size,
       UploadEvent.createBuffer false size false])
  else
    (true, newSt,
      [UploadEvent.createBuffer true size true,
       UploadEvent.mapMemcpyUnmap size,
       UploadEvent.createBuffer false size true,
       UploadEvent.allocCommandBuffer,
       UploadEvent.cmdCopyBuffer size,
       UploadEvent.queueSubmitTransfer,
       UploadEvent.queueWaitIdleTransfer,
       UploadEvent.freeCommandBuffer,
       UploadEvent.destroyStagingBuffer,
       UploadEvent.freeStagingMemory])

/-- The commands `Engine::record_command_buffer` can record. -/
inductive DrawCmd where
  | beginRenderPass
  | bindPipeline
  | bindVertexBuffer (binding offset : Nat)
  | bindIndexBuffer (offset : Nat)
  | setViewport (w h : Nat)
  | setScissor (w h : Nat)
  | drawIndexed (indexCount instanceCount firstIndex vertexOffset firstInstance : Nat)
  | draw (vertexCount instanceCount firstVertex firstInstance : Nat)
  | endRenderPass
deriving DecidableEq

/-- Whether a recorded command is a non-indexed draw (`vkCmdDraw`). -/
def DrawCmd.isNonIndexedDraw : DrawCmd → Bool
  | DrawCmd.draw _ _ _ _ => true
  | _ => false

/-- Mirrors the command sequence of `Engine::record_command_buffer`
(part_002 lines 935-1010): the index buffer is bound at byte offset
`_vertex_count * sizeof(Vertex)` (lines 980-985) and the draw is always
`vkCmdDrawIndexed(_index_count, 1, 0, 0, 0)` (line 1003). -/
def record_command_buffer (width height : Nat) (st : EngineGeom) : List DrawCmd :=
  [DrawCmd.beginRenderPass,
   DrawCmd.bindPipeline,
   DrawCmd.bindVertexBuffer 0 0,
   DrawCmd.bindIndexBuffer (st.vertex_count * sizeofVertex),
   DrawCmd.setViewport width height,
   DrawCmd.setScissor width height,
   DrawCmd.drawIndexed st.index_count 1 0 0 0,
   DrawCmd.endRenderPass]

/-- A shader file as `Engine::create_pipeline` observes it: whether
`CreateFile` opens it, and its size in bytes. -/
structure ShaderFile where
  opened : Bool
  size : Nat
deriving DecidableEq

/-- The fate of one shader entry inside the `create_pipeline` loop. -/
inductive ShaderOutcome where
  | skippedOpenFailure
  | skippedReadFailure
  | moduleCreated (codeSize : Nat)
deriving DecidableEq

/-- Mirrors the per-shader file handling of `Engine::create_pipeline`
(part_002 lines 523-556): a failed open or a failed `ReadFile` skips the
entry; otherwise `ReadFile(file, buffer, 2048, &code_size, 0)` into the
2048-byte stack buffer reads `min(size, 2048)` bytes (Win32 `ReadFile`
reads at most the requested 2048 bytes and succeeds at end of file), and
the shader module is created with `codeSize = code_size`. -/
def read_shader (f : ShaderFile) (readOk : Bool) : ShaderOutcome :=
  if f.opened = false then ShaderOutcome.skippedOpenFailure
  else if readOk = false then ShaderOutcome.skippedReadFailure
  else ShaderOutcome.moduleCreated (min f.size 2048)

/- ------------------------------------------------------------------ -/
/- Theorems -/
/- ------------------------------------------------------------------ -/

/-- The graphics field written by one loop iteration. -/
theorem stepFamily_graphics (q : queue_indices) (i : Nat) (f : QueueFamily) :
    (stepFamily q i f).graphics = if f.graphicsBit then some i else q.graphics := by
  rcases f with ⟨g, t, p⟩
  cases g <;> cases t <;> cases p <;> rfl

/-- The present field written by one loop iteration. -/
theorem stepFamily_present (q : queue_indices) (i : Nat) (f : QueueFamily) :
    (stepFamily q i f).present = if f.presentSupport then some i else q.present := by
  rcases f with ⟨g, t, p⟩
  cases g <;> cases t <;> cases p <;> rfl

/-- The transfer field written by one loop iteration: only a family with
the transfer bit and without the graphics bit writes it. -/
theorem stepFamily_transfer (q : queue_indices) (i : Nat) (f : QueueFamily) :
    (stepFamily q i f).transfer =
      if f.transferBit && !f.graphicsBit then some i else q.transfer := by
  rcases f with ⟨g, t, p⟩
  cases g <;> cases t <;> cases p <;> rfl

/-- Resolvedness of the graphics role after one iteration. -/
theorem stepFamily_graphics_isSome (q : queue_indices) (i : Nat) (f : QueueFamily) :
    (stepFamily q i f).graphics.isSome = (f.graphicsBit || q.graphics.isSome) := by
  rw [stepFamily_graphics]
  cases f.graphicsBit <;> simp

/-- Resolvedness of the present role after one iteration. -/
theorem stepFamily_present_isSome (q : queue_indices) (i : Nat) (f : QueueFamily) :
    (stepFamily q i f).present.isSome = (f.presentSupport || q.present.isSome) := by
  rw [stepFamily_present]
  cases f.presentSupport <;> simp

/-- Resolvedness of the transfer role after one iteration. -/
theorem stepFamily_transfer_isSome (q : queue_indices) (i : Nat) (f : QueueFamily) :
    (stepFamily q i f).transfer.isSome =
      ((f.transferBit && !f.graphicsBit) || q.transfer.isSome) := by
  rw [stepFamily_transfer]
  cases hc : (f.transferBit && !f.graphicsBit) <;> simp

/-- Completeness of the discovery loop: each role resolves iff it was
already resolved or some scanned family meets the role's (code-level)
condition. -/
theorem findLoop_complete : ∀ (fs : List QueueFamily) (i : Nat) (q : queue_indices),
    is_complete (findLoop fs i q) = true ↔
      ((q.graphics.isSome = true ∨ fs.any (fun f => f.graphicsBit) = true) ∧
       (q.present.isSome = true ∨ fs.any (fun f => f.presentSupport) = true) ∧
       (q.transfer.isSome = true ∨ fs.any (fun f => f.transferBit && !f.graphicsBit) = true))
  | [], i, q => by
    simp [findLoop, is_complete, Bool.and_eq_true, and_assoc]
  | f :: fs, i, q => by
    have hg := stepFamily_graphics_isSome q i f
    have hp := stepFamily_present_isSome q i f
    have ht := stepFamily_transfer_isSome q i f
    cases hc : is_complete (stepFamily q i f) with
    | true =>
      have hc2 := hc
      simp only [is_complete, Bool.and_eq_true] at hc2
      rw [hg, hp, ht] at hc2
      simp only [Bool.or_eq_true] at hc2
      simp only [findLoop, hc, if_true, List.any_cons, Bool.or_eq_true]
      constructor
      · intro _
        tauto
      · intro _
        trivial
    | false =>
      simp only [findLoop, hc, Bool.false_eq_true, if_false]
      rw [findLoop_complete fs (i + 1) (stepFamily q i f)]
      rw [hg, hp, ht]
      simp only [List.any_cons, Bool.or_eq_true]
      tauto

/-- Helper: a Bool is false iff it is not true. -/
theorem bool_eq_false_iff_not_true (b : Bool) : b = false ↔ ¬ (b = true) := by
  cases b <;> simp

/-- Claim C1 (amended): `init_vulkan` reports the incomplete-queue-support
failure iff no family advertises graphics capability, or no family reports
present support, or no family advertises transfer capability while lacking
graphics capability.  (The claim as frozen reads the transfer role as
satisfied by any family advertising transfer capability; the code only
accepts transfer-capable families without the graphics bit, see
`C1_queue_failure_counterexample`.) -/
theorem C1_queue_failure_iff (fams : List QueueFamily) :
    init_vulkan_queue_failure fams = true ↔
      (fams.any (fun f => f.graphicsBit) = false ∨
       fams.any (fun f => f.presentSupport) = false ∨
       fams.any (fun f => f.transferBit && !f.graphicsBit) = false) := by
  have h2 : is_complete (find_queue_indices fams) = true ↔
      (fams.any (fun f => f.graphicsBit) = true ∧
       fams.any (fun f => f.presentSupport) = true ∧
       fams.any (fun f => f.transferBit && !f.graphicsBit) = true) := by
    have h := findLoop_complete fams 0 ⟨none, none, none⟩
    simpa using h
  have hx : init_vulkan_queue_failure fams = true ↔
      ¬ (is_complete (find_queue_indices fams) = true) := by
    unfold init_vulkan_queue_failure
    cases is_complete (find_queue_indices fams) <;> simp
  rw [hx, h2,
    bool_eq_false_iff_not_true (fams.any (fun f => f.graphicsBit)),
    bool_eq_false_iff_not_true (fams.any (fun f => f.presentSupport)),
    bool_eq_false_iff_not_true (fams.any (fun f => f.transferBit && !f.graphicsBit))]
  tauto

/-- Claim C1 counterexample: a single queue family advertising graphics
and transfer capability with present support satisfies every role of the
claim, yet the code reports the incomplete-queue-support failure (the
`else if` at part_002 line 114 never assigns the transfer index to a
graphics-capable family).  This refutes the claim's "if and only if". -/
theorem C1_queue_failure_counterexample :
    ¬ ((init_vulkan_queue_failure [⟨true, true, true⟩] = true) ↔
       (([(⟨true, true, true⟩ : QueueFamily)].any (fun f => f.graphicsBit) = false) ∨
        ([(⟨true, true, true⟩ : QueueFamily)].any (fun f => f.presentSupport) = false) ∨
        ([(⟨true, true, true⟩ : QueueFamily)].any (fun f => f.transferBit) = false))) := by
  decide

/-- The discovery loop returns, for each role, the last matching family of
the scanned prefix. -/
theorem findLoop_eq_last : ∀ (fs : List QueueFamily) (i : Nat) (q : queue_indices),
    findLoop fs i q =
      ⟨lastFamilyIndex (fun f => f.graphicsBit) (fs.take (scanLength fs i q)) i q.graphics,
       lastFamilyIndex (fun f => f.presentSupport) (fs.take (scanLength fs i q)) i q.present,
       lastFamilyIndex (fun f => f.transferBit && !f.graphicsBit)
         (fs.take (scanLength fs i q)) i q.transfer⟩
  | [], i, q => rfl
  | f :: fs, i, q => by
    have hg := stepFamily_graphics q i f
    have hp := stepFamily_present q i f
    have ht := stepFamily_transfer q i f
    cases hc : is_complete (stepFamily q i f) with
    | true =>
      simp only [findLoop, scanLength, hc, if_true]
      apply queue_indices.ext
      · rw [hg]; rfl
      · rw [hp]; rfl
      · rw [ht]; rfl
    | false =>
      simp only [findLoop, scanLength, hc, Bool.false_eq_true, if_false]
      rw [findLoop_eq_last fs (i + 1) (stepFamily q i f)]
      apply queue_indices.ext
      · show lastFamilyIndex _ _ _ (stepFamily q i f).graphics =
          lastFamilyIndex _ ((f :: fs).take (scanLength fs (i + 1) (stepFamily q i f) + 1)) i
            q.graphics
        rw [List.take_succ_cons, hg]
        rfl
      · show lastFamilyIndex _ _ _ (stepFamily q i f).present =
          lastFamilyIndex _ ((f :: fs).take (scanLength fs (i + 1) (stepFamily q i f) + 1)) i
            q.present
        rw [List.take_succ_cons, hp]
        rfl
      · show lastFamilyIndex _ _ _ (stepFamily q i f).transfer =
          lastFamilyIndex _ ((f :: fs).take (scanLength fs (i + 1) (stepFamily q i f) + 1)) i
            q.transfer
        rw [List.take_succ_cons, ht]
        rfl

/-- Claim C2 (amended): the scan stops after the first family at which all
three roles are resolved (`scanLength`), and within that scanned prefix
each returned role index is the LAST matching family, not the first:
graphics = last graphics-capable family scanned, present = last family
scanned with present support, transfer = last family scanned that is
transfer-capable and not graphics-capable. -/
theorem C2_selected_indices (fams : List QueueFamily) :
    find_queue_indices fams =
      ⟨lastFamilyIndex (fun f => f.graphicsBit)
         (fams.take (scanLength fams 0 ⟨none, none, none⟩)) 0 none,
       lastFamilyIndex (fun f => f.presentSupport)
         (fams.take (scanLength fams 0 ⟨none, none, none⟩)) 0 none,
       lastFamilyIndex (fun f => f.transferBit && !f.graphicsBit)
         (fams.take (scanLength fams 0 ⟨none, none, none⟩)) 0 none⟩ :=
  findLoop_eq_last fams 0 ⟨none, none, none⟩

/-- Claim C2 counterexample: with families
[graphics, graphics, transfer-only, present-only] the loop overwrites the
graphics index at family 1 before the roles complete at family 3, so the
selected graphics family is 1, not the first graphics-capable family 0. -/
theorem C2_first_graphics_counterexample :
    (find_queue_indices
        [⟨true, false, false⟩, ⟨true, false, false⟩,
         ⟨false, true, false⟩, ⟨false, false, true⟩]).graphics ≠
      firstFamilyIndex (fun f => f.graphicsBit)
        [⟨true, false, false⟩, ⟨true, false, false⟩,
         ⟨false, true, false⟩, ⟨false, false, true⟩] 0 := by
  decide

/-- Shape of a completed size-wait loop: either the initial extent was
already nonzero and the loop ran no iteration, or the initial extent was
degenerate and the loop's trace is a stretch of degenerate reads and event
waits ending with a nonzero read followed by one final `glfwWaitEvents`. -/
theorem waitNonzero_spec : ∀ (fuel : Nat) (extents : Nat → Nat × Nat) (i w h : Nat)
    (tr : List RecreateAction), waitNonzero extents i w h fuel = some tr →
    (0 < w ∧ 0 < h ∧ tr = []) ∨
    ((w = 0 ∨ h = 0) ∧ ∃ zp w2 h2,
      tr = zp ++ [RecreateAction.getFramebufferSize w2 h2, RecreateAction.waitEvents] ∧
      0 < w2 ∧ 0 < h2 ∧ ∀ a ∈ zp, isBlockedPoll a = true)
  | 0, extents, i, w, h, tr => by
    intro hsome
    by_cases hz : w = 0 ∨ h = 0
    · simp [waitNonzero, hz] at hsome
    · left
      rw [waitNonzero, if_neg hz] at hsome
      push_neg at hz
      cases hsome
      exact ⟨Nat.pos_of_ne_zero hz.1, Nat.pos_of_ne_zero hz.2, rfl⟩
  | fuel + 1, extents, i, w, h, tr => by
    intro hsome
    by_cases hz : w = 0 ∨ h = 0
    · right
      refine ⟨hz, ?_⟩
      rw [waitNonzero, if_pos hz] at hsome
      rcases Option.map_eq_some'.mp hsome with ⟨tr0, h0, htr⟩
      rcases waitNonzero_spec fuel extents (i + 1) (extents i).1 (extents i).2 tr0 h0 with
        ⟨hw, hh, htr0⟩ | ⟨hz2, zp, w2, h2, htr0, hw2, hh2, hblk⟩
      · refine ⟨[], (extents i).1, (extents i).2, ?_, hw, hh, by simp⟩
        rw [← htr, htr0]
        rfl
      · refine ⟨RecreateAction.getFramebufferSize (extents i).1 (extents i).2 ::
          RecreateAction.waitEvents :: zp, w2, h2, ?_, hw2, hh2, ?_⟩
        · rw [← htr, htr0]
          simp
        · intro a ha
          simp only [List.mem_cons] at ha
          rcases ha with rfl | rfl | ha
          · rcases hz2 with hz2 | hz2 <;> simp [isBlockedPoll, hz2]
          · rfl
          · exact hblk a ha
    · left
      rw [waitNonzero, if_neg hz] at hsome
      push_neg at hz
      cases hsome
      exact ⟨Nat.pos_of_ne_zero hz.1, Nat.pos_of_ne_zero hz.2, rfl⟩

/-- Claim C4: whenever `recreate_swapchain` completes, its trace consists
only of degenerate framebuffer-size reads and event waits until a read
observes both dimensions nonzero, and only then performs the full
device-idle wait followed by destruction of the old framebuffers, image
views and swapchain and the rebuild — so no teardown happens while the
observed extent has a zero dimension, and the device-idle wait precedes
every destroy. -/
theorem C4_recreate_blocks_then_idles (extents : Nat → Nat × Nat) (r : RebuildResults)
    (fuel : Nat) (b : Bool) (tr : List RecreateAction)
    (hsome : recreate_swapchain extents r fuel = some (b, tr)) :
    blockedThenRebuild r tr := by
  unfold recreate_swapchain at hsome
  rcases Option.map_eq_some'.mp hsome with ⟨tr0, h0, htr⟩
  have hb : tr = RecreateAction.getFramebufferSize (extents 0).1 (extents 0).2 ::
      tr0 ++ rebuildRecreateActions r := by
    have := congrArg Prod.snd htr
    simpa using this.symm
  rcases waitNonzero_spec fuel extents 1 (extents 0).1 (extents 0).2 tr0 h0 with
    ⟨hw, hh, htr0⟩ | ⟨hz, zp, w2, h2, htr0, hw2, hh2, hblk⟩
  · refine ⟨[], (extents 0).1, (extents 0).2, rebuildRecreateActions r, ?_, hw, hh,
      by simp, Or.inl rfl⟩
    rw [hb, htr0]
    rfl
  · refine ⟨RecreateAction.getFramebufferSize (extents 0).1 (extents 0).2 :: zp, w2, h2,
      RecreateAction.waitEvents :: rebuildRecreateActions r, ?_, hw2, hh2, ?_, Or.inr rfl⟩
    · rw [hb, htr0]
      simp
    · intro a ha
      simp only [List.mem_cons] at ha
      rcases ha with rfl | ha
      · rcases hz with hz | hz <;> simp [isBlockedPoll, hz]
      · exact hblk a ha

/-- Claim C4 witness: a concrete run whose first poll observes width 0 and
whose second poll observes 800x600. -/
theorem C4_recreate_blocks_then_idles_witness :
    recreate_swapchain exampleExtents allStepsOk 2 = some (true, exampleTrace) ∧
    blockedThenRebuild allStepsOk exampleTrace :=
  ⟨by decide,
   C4_recreate_blocks_then_idles exampleExtents allStepsOk 2 true exampleTrace (by decide)⟩

/-- Claim C3: `recreate_swapchain` discards the results of its sub-steps
(part_002 lines 928-930) and returns `true` unconditionally.  Here the
swapchain-creation sub-step fails, yet image-view and framebuffer creation
still run against the failed swapchain and the call reports success — the
rebuild neither aborts nor surfaces the failure, contradicting the spec's
error-propagation design (which `init_vulkan` follows for the very same
sub-steps at part_002 lines 375-376 and 426). -/
theorem C3_rebuild_ignores_failure :
    recreate_swapchain (fun _ => (800, 600)) ⟨false, true, true⟩ 1 =
      some (true,
        [RecreateAction.getFramebufferSize 800 600,
         RecreateAction.deviceWaitIdle,
         RecreateAction.destroyFramebuffers, RecreateAction.destroyImageViews, RecreateAction.destroySwapchain,
         RecreateAction.createSwapchain false, RecreateAction.createImageViews true,
         RecreateAction.createFramebuffers true]) := by
  decide

/-- Claim C5 (amended): the swapchain image-sharing mode is concurrent in
BOTH branches; when graphics and present differ the three resolved family
indices are listed, otherwise only the first two entries of
`index_values` — graphics and transfer — are listed. -/
theorem C5_sharing_always_concurrent (graphics transfer present : Nat) :
    (create_swapchain_sharing graphics transfer present).imageSharingMode =
      SharingMode.concurrent ∧
    (create_swapchain_sharing graphics transfer present).queueFamilyIndices =
      (if graphics = present then [graphics, transfer]
       else [graphics, transfer, present]) ∧
    (create_swapchain_sharing graphics transfer present).queueFamilyIndexCount =
      (if graphics = present then 2 else 3) := by
  by_cases h : graphics = present <;> simp [create_swapchain_sharing, h]

/-- Claim C5 counterexample: with equal graphics and present family
indices (families 0, 0, transfer 1) the code still requests concurrent
sharing, not the exclusive sharing the claim asserts for this case
(part_002 line 826 writes `VK_SHARING_MODE_CONCURRENT` in the `else`
branch too). -/
theorem C5_sharing_counterexample :
    (create_swapchain_sharing 0 1 0).imageSharingMode ≠ SharingMode.exclusive := by
  decide

/-- Claim C6: every buffer `submit_vertex_data` creates (staging and
destination alike) has size `vertex_count * sizeof(Vertex) + index_count *
2` bytes, and the per-frame recording after the upload binds the index
buffer at byte offset `vertex_count * sizeof(Vertex)`; in particular the
sample geometry with 4 vertices and 6 indices gives buffers of 4 * 20 + 6
* 2 = 92 bytes with the index region at offset 80. -/
theorem C6_upload_sizes_and_offset (stagingOk dstOk : Bool) (st : EngineGeom)
    (g : Geometry) (w h : Nat) :
    ((submit_vertex_data stagingOk dstOk st g).2.2.all
        (eventBufferSizeIs (g.vertex_count * sizeofVertex + g.index_count * 2))) = true ∧
    DrawCmd.bindIndexBuffer (g.vertex_count * sizeofVertex) ∈
      record_command_buffer w h (submit_vertex_data stagingOk dstOk st g).2.1 ∧
    ((submit_vertex_data true true engineInitGeom ⟨4, 6⟩).2.2.all
        (eventBufferSizeIs 92)) = true ∧
    DrawCmd.bindIndexBuffer 80 ∈
      record_command_buffer w h (submit_vertex_data true true engineInitGeom ⟨4, 6⟩).2.1 := by
  refine ⟨?_, ?_, by decide, ?_⟩
  · cases stagingOk <;> cases dstOk <;>
      simp [submit_vertex_data, eventBufferSizeIs]
  · cases stagingOk <;> cases dstOk <;>
      simp [submit_vertex_data, record_command_buffer]
  · simp [submit_vertex_data, record_command_buffer, sizeofVertex]

/-- Claim C7 (amended): the recorded draw is always
`vkCmdDrawIndexed(_index_count, 1, 0, 0, 0)` — there is no non-indexed
draw at all; `_index_count` is overwritten at the start of every
`submit_vertex_data` call, whether or not that call succeeds, and is 0
after construction, so running without any upload records an indexed draw
of 0 indices rather than a fixed 3-vertex draw. -/
theorem C7_draw_always_indexed (w h : Nat) (st : EngineGeom) (stagingOk dstOk : Bool)
    (g : Geometry) :
    DrawCmd.drawIndexed st.index_count 1 0 0 0 ∈ record_command_buffer w h st ∧
    ((record_command_buffer w h st).all fun c => !c.isNonIndexedDraw) = true ∧
    (submit_vertex_data stagingOk dstOk st g).2.1.index_count = g.index_count ∧
    engineInitGeom.index_count = 0 := by
  refine ⟨?_, ?_, ?_, rfl⟩
  · simp [record_command_buffer]
  · simp [record_command_buffer, DrawCmd.isNonIndexedDraw]
  · cases stagingOk <;> cases dstOk <;> simp [submit_vertex_data]

/-- Claim C7 counterexample: with no prior upload (`_index_count = 0` from
the constructor) the recorded command list contains an indexed draw of 0
indices and no non-indexed draw whatsoever — `run()` does not fall back to
a fixed 3-vertex, non-indexed draw (part_002 line 1003 is the only draw
call). -/
theorem C7_fallback_counterexample :
    DrawCmd.drawIndexed 0 1 0 0 0 ∈ record_command_buffer 800 600 engineInitGeom ∧
    ((record_command_buffer 800 600 engineInitGeom).all
        fun c => !c.isNonIndexedDraw) = true := by
  decide

/-- Claim C8 (amended): on the success path the staging buffer and its
memory are released, and only after the transfer queue has been drained by
`vkQueueWaitIdle` following submission of the one-shot copy (the full
event order is proved); but when destination-buffer creation fails the
call returns `false` without releasing the already-created staging buffer
(part_002 line 724 returns before any cleanup). -/
theorem C8_staging_release (st : EngineGeom) (g : Geometry) :
    (submit_vertex_data true true st g).1 = true ∧
    (submit_vertex_data true true st g).2.2 =
      [UploadEvent.createBuffer true (g.vertex_count * sizeofVertex + g.index_count * 2) true,
       UploadEvent.mapMemcpyUnmap (g.vertex_count * sizeofVertex + g.index_count * 2),
       UploadEvent.createBuffer false (g.vertex_count * sizeofVertex + g.index_count * 2) true,
       UploadEvent.allocCommandBuffer,
       UploadEvent.cmdCopyBuffer (g.vertex_count * sizeofVertex + g.index_count * 2),
       UploadEvent.queueSubmitTransfer,
       UploadEvent.queueWaitIdleTransfer,
       UploadEvent.freeCommandBuffer,
       UploadEvent.destroyStagingBuffer,
       UploadEvent.freeStagingMemory] ∧
    ((submit_vertex_data true false st g).2.2.all
        fun e => !e.isStagingRelease) = true := by
  refine ⟨rfl, rfl, ?_⟩
  simp [submit_vertex_data, UploadEvent.isStagingRelease]

/-- Claim C8 counterexample: when the staging buffer is created
successfully but destination-buffer creation fails, `submit_vertex_data`
returns `false` with the staging buffer created and never released — the
claim's "released before the call returns (whether the call succeeds or
fails)" is false. -/
theorem C8_staging_leak_counterexample :
    (submit_vertex_data true false engineInitGeom ⟨4, 6⟩).1 = false ∧
    UploadEvent.createBuffer true 92 true ∈
      (submit_vertex_data true false engineInitGeom ⟨4, 6⟩).2.2 ∧
    ((submit_vertex_data true false engineInitGeom ⟨4, 6⟩).2.2.all
        fun e => !e.isStagingRelease) = true := by
  decide

/-- Claim C9: the requested swapchain image count is `minImageCount + 1`,
clamped down to `maxImageCount` exactly when `maxImageCount` is nonzero
and exceeded (stated for capability reports whose `minImageCount + 1` does
not overflow 32-bit arithmetic). -/
theorem C9_image_count_clamp (minImageCount maxImageCount : Nat)
    (h : minImageCount + 1 < 2 ^ 32) :
    create_swapchain_image_count minImageCount maxImageCount =
      if 0 < maxImageCount ∧ maxImageCount < minImageCount + 1 then maxImageCount
      else minImageCount + 1 := by
  have hm : (minImageCount + 1) % 4294967296 = minImageCount + 1 :=
    Nat.mod_eq_of_lt (by simpa using h)
  simp [create_swapchain_image_count, hm]

/-- Claim C9 witness: min 3, max 3 clamps 4 down to 3. -/
theorem C9_image_count_clamp_witness :
    3 + 1 < 2 ^ 32 ∧ create_swapchain_image_count 3 3 = 3 := by
  refine ⟨by norm_num, ?_⟩
  rw [C9_image_count_clamp 3 3 (by norm_num)]
  norm_num

/-- Claim C10: for an opened shader file whose read succeeds, at most 2048
bytes are read into the fixed buffer, the module is created with code size
`min size 2048`, and a file larger than 2048 bytes still yields a created
module of exactly 2048 bytes — truncation is silent, no error outcome is
produced. -/
theorem C10_shader_truncation (size : Nat) :
    read_shader ⟨true, size⟩ true = ShaderOutcome.moduleCreated (min size 2048) ∧
    min size 2048 ≤ 2048 ∧
    (2048 < size →
      read_shader ⟨true, size⟩ true = ShaderOutcome.moduleCreated 2048) := by
  refine ⟨rfl, min_le_right size 2048, fun hgt => ?_⟩
  simp [read_shader, Nat.min_eq_right (Nat.le_of_lt hgt)]

/-- Claim C10 witness: a 5000-byte shader file is silently truncated to a
2048-byte module. -/
theorem C10_shader_truncation_witness :
    2048 < 5000 ∧ read_shader ⟨true, 5000⟩ true = ShaderOutcome.moduleCreated 2048 :=
  ⟨by norm_num, (C10_shader_truncation 5000).2.2 (by norm_num)⟩
